import Mathlib

/-!
Shallow embedding of `src/audio_linker.py` (the audiolink repository).

Volumes are modelled as rationals (`ℚ`); the Python code works with the
normalized scalar volumes returned by the platform layer.  Calls into the
external platform layer (pycaw / COM) are modelled by explicit outcome
data carried on the device records: a device enumeration snapshot is a
list of `PycawDevice`, and a bound volume-control handle is a `Handle`
recording what its read and write calls do.  Exceptions raised by the
platform layer and caught by the Python code are modelled as explicit
failure outcomes (`none` results / `raises` flags); the Python functions
catch every such exception, so each embedded function is total.
-/

namespace AudioLink

/-- A bound volume-control handle (the `_volume_interface` pointer).
`getResult = none` models `GetMasterVolumeLevelScalar` raising;
`setRaises = true` models `SetMasterVolumeLevelScalar` raising. -/
structure Handle where
  getResult : Option ℚ
  setRaises : Bool
deriving DecidableEq, Repr

/-- Behaviour of one enumerated device's `EndpointVolume` attribute as seen
by `AudioDevice.initialize`:
* `missing`  — `hasattr(device, 'EndpointVolume')` is false;
* `falsy`    — the attribute exists but is falsy (`None`), so the inner
  `if volume_interface:` is skipped and the scan continues;
* `raises`   — accessing the attribute or casting it raises an exception
  (caught by the `except` clauses, which return `False`);
* `ok h`     — the attribute is a truthy interface; `ctypes.cast` of a
  truthy pointer yields a truthy pointer, which is stored as handle `h`. -/
inductive EPStatus where
  | missing : EPStatus
  | falsy : EPStatus
  | raises : EPStatus
  | ok : Handle → EPStatus
deriving DecidableEq, Repr

/-- One device record in the `AudioUtilities.GetAllDevices()` snapshot. -/
structure PycawDevice where
  id : String
  friendlyName : String
  ep : EPStatus
deriving DecidableEq, Repr

/-- The mutable state of an `AudioDevice` object: constructor arguments
`device_id` / `device_name`, the lazily bound `_volume_interface`,
and the `_device` field. -/
structure ADState where
  device_id : String
  device_name : String
  volume_interface : Option Handle
  device : Option PycawDevice
deriving DecidableEq, Repr

/-- Embeds `AudioDevice.__init__(device_id, device_name)`. -/
def AudioDevice.init (did name : String) : ADState :=
  { device_id := did, device_name := name, volume_interface := none, device := none }

/-- The scan loop of `AudioDevice.initialize` over the device snapshot.
Returns the Python return value together with the updated object state. -/
def initGo : List PycawDevice → ADState → Bool × ADState
  | [], st => (false, st)
  | d :: rest, st =>
    if d.id = st.device_id then
      let st1 := { st with device := some d }
      match d.ep with
      | .missing => (false, st1)
      | .falsy => initGo rest st1
      | .raises => (false, st1)
      | .ok h => (true, { st1 with volume_interface := some h })
    else initGo rest st

/-- Embeds `AudioDevice.initialize`.  Here `snap = none` models `GetAllDevices()` itself
raising (the outer `except` returns `False` with the state untouched). -/
def AudioDevice.initialize (snap : Option (List PycawDevice)) (st : ADState) :
    Bool × ADState :=
  match snap with
  | none => (false, st)
  | some l => initGo l st

/-- Embeds `AudioDevice.is_available`: true iff `_volume_interface is not None`. -/
def AudioDevice.is_available (st : ADState) : Bool :=
  st.volume_interface.isSome

/-- Embeds `AudioDevice.get_volume`: `None` when no handle is bound or the read
raises (the exception is caught), otherwise the scalar read from the handle. -/
def AudioDevice.get_volume (st : ADState) : Option ℚ :=
  match st.volume_interface with
  | none => none
  | some h => h.getResult

/-- Embeds `AudioDevice.set_volume`.  First component: the Python return value.
Second component: the value passed to `SetMasterVolumeLevelScalar`
(`none` when no call was made because no handle is bound); the code clamps
the argument with `max(0.0, min(1.0, volume))` before the call. -/
def AudioDevice.set_volume (st : ADState) (volume : ℚ) : Bool × Option ℚ :=
  match st.volume_interface with
  | none => (false, none)
  | some h =>
    let clamped := max 0 (min 1 volume)
    (!h.setRaises, some clamped)

/-- The scan loop of `find_device_by_id`.  The snapshot `full` is what the
nested `AudioDevice.initialize` call re-enumerates (the world is modelled as
a fixed snapshot, so both enumerations agree).  Note that when `initialize`
fails the Python `for` loop simply continues with the next device. -/
def findByIdGo : List PycawDevice → List PycawDevice → String → Option ADState
  | [], _, _ => none
  | d :: rest, full, did =>
    if d.id = did then
      match AudioDevice.initialize (some full) (AudioDevice.init d.id d.friendlyName) with
      | (true, ad) => some ad
      | (false, _) => findByIdGo rest full did
    else findByIdGo rest full did

/-- Embeds `find_device_by_id`.  Here `snap = none` models `GetAllDevices()` raising
(the `except` clause falls through to `return None`). -/
def find_device_by_id (snap : Option (List PycawDevice)) (device_id : String) :
    Option ADState :=
  match snap with
  | none => none
  | some l => findByIdGo l l device_id

/-- The scan loop of `find_device_by_name`; matches on `FriendlyName`. -/
def findByNameGo : List PycawDevice → List PycawDevice → String → Option ADState
  | [], _, _ => none
  | d :: rest, full, name =>
    if d.friendlyName = name then
      match AudioDevice.initialize (some full) (AudioDevice.init d.id d.friendlyName) with
      | (true, ad) => some ad
      | (false, _) => findByNameGo rest full name
    else findByNameGo rest full name

/-- Embeds `find_device_by_name`. -/
def find_device_by_name (snap : Option (List PycawDevice)) (device_name : String) :
    Option ADState :=
  match snap with
  | none => none
  | some l => findByNameGo l l device_name

/-! ## The polling tick of `AudioLinker._monitor_loop`

One iteration of the `while self._running` loop body (inside the lock) is
embedded as a function of the loop-local state (`last_volume1`,
`last_volume2`) and of what this tick observes of the linker fields and the
two devices.  Per-tick device observations are collected in `DevTick`:
whether `is_available()` returns true at the start of the tick, whether an
`initialize()` call made by the tick would succeed, what `get_volume()`
returns, and whether a `set_volume` call made by the tick succeeds. -/

/-- What one polling tick observes of one device slot's endpoint. -/
structure DevTick where
  available : Bool
  initOk : Bool
  vol : Option ℚ
  setOk : Bool
deriving DecidableEq, Repr

/-- The linker state one tick runs against: the `_enabled` flag, the
`_syncing` re-entrancy guard, and the two device slots. -/
structure TickEnv where
  enabled : Bool
  syncing : Bool
  dev1 : Option DevTick
  dev2 : Option DevTick
deriving DecidableEq, Repr

/-- Result of one tick: the loop-local `last_volume1` / `last_volume2`
afterwards, and the argument of the `set_volume` call made on each device
this tick (`none` when that device was not written to). -/
structure TickRes where
  last1 : Option ℚ
  last2 : Option ℚ
  write1 : Option ℚ
  write2 : Option ℚ
deriving DecidableEq, Repr

/-- The absolute-difference tolerance `0.001` used by the monitor loop. -/
def tol : ℚ := 1 / 1000

/-- The change test of lines 167 and 175:
`last is None or abs(current - last) > 0.001`. -/
def volDiffers (last : Option ℚ) (current : ℚ) : Bool :=
  match last with
  | none => true
  | some x => |current - x| > tol

/-- A tick that takes one of the `continue` paths: no write, loop-local
state unchanged. -/
def TickRes.skip (l1 l2 : Option ℚ) : TickRes :=
  { last1 := l1, last2 := l2, write1 := none, write2 := none }

/-- One iteration of the `_monitor_loop` body (the part under `self._lock`).
Mirrors lines 133–185 of `audio_linker.py`:
disabled / missing slot / failed re-initialization / guard set / failed
read each `continue`; otherwise the three-way comparison runs.  The boolean
result of the cross `set_volume` call is not inspected by the loop. -/
def tick (env : TickEnv) (l1 l2 : Option ℚ) : TickRes :=
  if !env.enabled then .skip l1 l2
  else
    match env.dev1, env.dev2 with
    | some a, some b =>
      if !a.available && !a.initOk then .skip l1 l2
      else if !b.available && !b.initOk then .skip l1 l2
      else if env.syncing then .skip l1 l2
      else
        match a.vol, b.vol with
        | some v1, some v2 =>
          if volDiffers l1 v1 then
            { last1 := some v1, last2 := some v1, write1 := none, write2 := some v1 }
          else if volDiffers l2 v2 then
            { last1 := some v2, last2 := some v2, write1 := some v2, write2 := none }
          else
            { last1 := some v1, last2 := some v2, write1 := none, write2 := none }
        | _, _ => .skip l1 l2
    | _, _ => .skip l1 l2

/-! ## Linker field mutation (`set_devices`, `set_enabled`, loop start)

`last_volume1` / `last_volume2` are local variables of `_monitor_loop`,
initialized to `None` when the thread's loop starts.  To state frame
properties about them alongside the object fields, the running system is
modelled as one record holding both. -/

/-- Combined state of a running `AudioLinker`: the object fields touched by
the public mutators plus the monitor loop's local last-observed volumes. -/
structure RunState where
  device1 : Option ADState
  device2 : Option ADState
  enabled : Bool
  last1 : Option ℚ
  last2 : Option ℚ
deriving DecidableEq, Repr

/-- Embeds `AudioLinker.set_devices`: replaces both slots (under the lock). -/
def set_devices (s : RunState) (d1 d2 : Option ADState) : RunState :=
  { s with device1 := d1, device2 := d2 }

/-- Embeds `AudioLinker.set_enabled`: sets the `_enabled` flag (under the lock). -/
def set_enabled (s : RunState) (e : Bool) : RunState :=
  { s with enabled := e }

/-- Entry of `_monitor_loop` (thread start): `last_volume1 = None`,
`last_volume2 = None`. -/
def monitorLoopStart (s : RunState) : RunState :=
  { s with last1 := none, last2 := none }

/-! ## Locking discipline of the public operations

Each public method of `AudioLinker` is embedded as the sequence of events
it performs, read off its body: lock acquisition/release (`with self._lock`)
and accesses to the shared instance fields. -/

/-- Shared instance fields of `AudioLinker`. -/
inductive LField where
  | device1 | device2 | enabled | running | thread
deriving DecidableEq, Repr

/-- One event performed by a public method. -/
inductive LEvent where
  | acquire : LEvent
  | release : LEvent
  | read : LField → LEvent
  | write : LField → LEvent
  | threadStart : LEvent
  | threadJoin : LEvent
deriving DecidableEq, Repr

/-- The public operations of `AudioLinker` named by the spec (the spec
calls `set_devices` "set_endpoints"). -/
inductive PublicOp where
  | set_devices | set_enabled | is_enabled | start | stop
deriving DecidableEq, Repr

/-- Event trace of each public method, read off `audio_linker.py` lines
96–124.  For `start` the trace is the launch path (`_running` initially
false); the early-return path is its prefix `[read running]` and is no
better guarded. -/
def opTrace : PublicOp → List LEvent
  | .set_devices => [.acquire, .write .device1, .write .device2, .release]
  | .set_enabled => [.acquire, .write .enabled, .release]
  | .is_enabled => [.read .enabled]
  | .start => [.read .running, .write .running, .write .thread, .threadStart]
  | .stop => [.write .running, .read .thread, .threadJoin]

/-- Whether every event of the trace after the first runs with the lock
held, given whether it is held initially. -/
def heldDuring : List LEvent → Bool → Bool
  | [], _ => true
  | .acquire :: r, _ => heldDuring r true
  | .release :: r, _ => heldDuring r false
  | _ :: r, h => h && heldDuring r h

/-- Property "acquires the single critical section for its full duration": the
method's first event takes the lock, its last event releases it, and every
event in between executes with the lock held. -/
def acquiresLockFully (tr : List LEvent) : Bool :=
  tr.head? = some .acquire && tr.getLast? = some .release && heldDuring tr false

/-! ## Theorems -/

/-- Frame property of the `initGo` scan: when the scan reports failure the
`_volume_interface` field is exactly what it was before the call, and when
it reports success a handle is bound. -/
theorem initGo_frame (l : List PycawDevice) :
    ∀ st : ADState,
      ((initGo l st).1 = false → (initGo l st).2.volume_interface = st.volume_interface)
      ∧ ((initGo l st).1 = true → ((initGo l st).2.volume_interface).isSome = true) := by
  induction l with
  | nil => intro st; exact ⟨fun _ => rfl, by simp [initGo]⟩
  | cons d rest ih =>
    intro st
    by_cases hid : d.id = st.device_id
    · cases hep : d.ep with
      | missing => simp [initGo, hid, hep]
      | falsy =>
        have h := ih { st with device := some d }
        simpa [initGo, hid, hep] using h
      | raises => simp [initGo, hid, hep]
      | ok h => simp [initGo, hid, hep]
    · simpa [initGo, hid] using ih st

/-- C6: with a handle bound, `set_volume(v)` passes the clamp
`max(0.0, min(1.0, v))` of `v` to the driver write (values below 0 are
written as 0.0, above 1 as 1.0, in-range values unchanged), and the call
returns false exactly when no handle is bound or the underlying write
raises, true otherwise. -/
theorem C6_set_volume_clamps (st : ADState) (v : ℚ) :
    (st.volume_interface = none → AudioDevice.set_volume st v = (false, none))
    ∧ (∀ h : Handle, st.volume_interface = some h →
        ((AudioDevice.set_volume st v).2 = some (max 0 (min 1 v))
          ∧ (v < 0 → (AudioDevice.set_volume st v).2 = some 0)
          ∧ (1 < v → (AudioDevice.set_volume st v).2 = some 1)
          ∧ (0 ≤ v → v ≤ 1 → (AudioDevice.set_volume st v).2 = some v)))
    ∧ ((AudioDevice.set_volume st v).1 = false ↔
        st.volume_interface = none
          ∨ ∃ h : Handle, st.volume_interface = some h ∧ h.setRaises = true) := by
  obtain ⟨did, dn, vi, dev⟩ := st
  cases vi with
  | none =>
    refine ⟨fun _ => rfl, ?_, ?_⟩
    · intro h hh; exact absurd hh (by simp)
    · simp [AudioDevice.set_volume]
  | some h =>
    refine ⟨fun hc => absurd hc (by simp), ?_, ?_⟩
    · intro h2 hh2
      refine ⟨rfl, ?_, ?_, ?_⟩
      · intro hneg
        have hm : min 1 v = v := min_eq_right (hneg.le.trans zero_le_one)
        have hM : max 0 v = 0 := max_eq_left hneg.le
        simp [AudioDevice.set_volume, hm, hM]
      · intro hgt
        have hm : min 1 v = 1 := min_eq_left hgt.le
        have hM : max (0 : ℚ) 1 = 1 := max_eq_right zero_le_one
        simp [AudioDevice.set_volume, hm, hM]
      · intro h0 h1
        simp [AudioDevice.set_volume, min_eq_right h1, max_eq_right h0]
    · simp [AudioDevice.set_volume]

/-- Witness for C6 at a concrete bound endpoint and out-of-range input. -/
theorem C6_set_volume_clamps_witness :
    (AudioDevice.set_volume ⟨"id0", "name0", some ⟨some (1/2), false⟩, none⟩ (3/2)).2
      = some 1 :=
  ((C6_set_volume_clamps ⟨"id0", "name0", some ⟨some (1/2), false⟩, none⟩ (3/2)).2.1
      ⟨some (1/2), false⟩ rfl).2.2.1 (by norm_num)

/-- C7: a call to `initialize` that returns false leaves the bound handle
field exactly as it was (so `is_available` is unchanged), and a call that
returns true leaves a handle bound (so `is_available` returns true). -/
theorem C7_init_frame (snap : Option (List PycawDevice)) (st : ADState) :
    (( AudioDevice.initialize snap st).1 = false →
      (( AudioDevice.initialize snap st).2.volume_interface = st.volume_interface
        ∧ AudioDevice.is_available ( AudioDevice.initialize snap st).2
            = AudioDevice.is_available st))
    ∧ (( AudioDevice.initialize snap st).1 = true →
        AudioDevice.is_available ( AudioDevice.initialize snap st).2 = true) := by
  cases snap with
  | none => exact ⟨fun _ => ⟨rfl, rfl⟩, by simp [ AudioDevice.initialize]⟩
  | some l =>
    have h := initGo_frame l st
    constructor
    · intro hf
      have hv := h.1 hf
      exact ⟨hv, by simp [ AudioDevice.initialize, AudioDevice.is_available, hv]⟩
    · intro ht
      have hv := h.2 ht
      simpa [ AudioDevice.initialize, AudioDevice.is_available] using hv

/-- Witness for C7: a failed refresh against a snapshot whose matching
device lacks the volume attribute leaves a previously bound handle intact. -/
theorem C7_init_frame_witness :
    ( AudioDevice.initialize (some [⟨"a", "n", .missing⟩])
        ⟨"a", "n", some ⟨some 1, false⟩, none⟩).1 = false
    ∧ ( AudioDevice.initialize (some [⟨"a", "n", .missing⟩])
        ⟨"a", "n", some ⟨some 1, false⟩, none⟩).2.volume_interface
        = some ⟨some 1, false⟩ :=
  ⟨rfl, ((C7_init_frame (some [⟨"a", "n", .missing⟩])
      ⟨"a", "n", some ⟨some 1, false⟩, none⟩).1 rfl).1⟩

/-- C8: `get_volume` returns none exactly when no handle is bound or the
read raises (the raising read is the `getResult = none` outcome, absorbed
into a `none` return — the embedded function is total, so no failure
escapes the call); otherwise it returns the scalar read from the handle. -/
theorem C8_get_volume_none_iff (st : ADState) :
    (AudioDevice.get_volume st = none ↔
      st.volume_interface = none
        ∨ ∃ h : Handle, st.volume_interface = some h ∧ h.getResult = none)
    ∧ (∀ (h : Handle) (v : ℚ), st.volume_interface = some h → h.getResult = some v →
        AudioDevice.get_volume st = some v) := by
  obtain ⟨did, dn, vi, dev⟩ := st
  cases vi with
  | none =>
    constructor
    · simp [AudioDevice.get_volume]
    · intro h v hh; exact absurd hh (by simp)
  | some h =>
    constructor
    · simp [AudioDevice.get_volume]
    · intro h2 v hh2 hg
      injection hh2 with he
      subst he
      simp [AudioDevice.get_volume, hg]

/-- C1: in a tick with both endpoints present and available, the guard
clear, linking enabled and both volume reads succeeding, if slot 1's
last-observed volume is unset or the current volume differs from it by
more than the tolerance, then the tick writes slot 1's current volume to
device 2, sets both last-observed volumes to that value, and does not take
slot 2's branch (no write to device 1) — in particular slot 1's value wins
whenever both slots differ, including the very first tick where both
last-observed volumes are unset. -/
theorem C1_dev1_branch_wins (a b : DevTick) (l1 l2 : Option ℚ) (v1 v2 : ℚ)
    (ha : a.available = true) (hb : b.available = true)
    (hv1 : a.vol = some v1) (hv2 : b.vol = some v2)
    (hdiff : l1 = none ∨ ∃ x : ℚ, l1 = some x ∧ |v1 - x| > tol) :
    tick { enabled := true, syncing := false, dev1 := some a, dev2 := some b } l1 l2
      = { last1 := some v1, last2 := some v1, write1 := none, write2 := some v1 } := by
  have hd : volDiffers l1 v1 = true := by
    rcases hdiff with h | ⟨x, hx, hgt⟩
    · simp [volDiffers, h]
    · simp [volDiffers, hx, decide_eq_true_eq]
      exact hgt
  simp [tick, ha, hb, hv1, hv2, hd]

/-- Witness for C1 on the very first tick: both last-observed volumes are
unset, device volumes 7/10 and 1/2, and 7/10 is propagated to device 2. -/
theorem C1_dev1_branch_wins_witness :
    tick { enabled := true, syncing := false,
           dev1 := some ⟨true, true, some (7/10), true⟩,
           dev2 := some ⟨true, true, some (1/2), true⟩ } none none
      = { last1 := some (7/10), last2 := some (7/10),
          write1 := none, write2 := some (7/10) } :=
  C1_dev1_branch_wins ⟨true, true, some (7/10), true⟩ ⟨true, true, some (1/2), true⟩
    none none (7/10) (1/2) rfl rfl rfl rfl (Or.inl rfl)

/-- C2: in a tick with both endpoints present and available, the guard
clear, linking enabled, both reads succeeding, both last-observed volumes
set, and each current volume within the tolerance of its last-observed
value, no write is made to either device and both last-observed volumes
are refreshed to the freshly read current values. -/
theorem C2_no_write_within_tol (a b : DevTick) (x1 x2 v1 v2 : ℚ)
    (ha : a.available = true) (hb : b.available = true)
    (hv1 : a.vol = some v1) (hv2 : b.vol = some v2)
    (h1 : |v1 - x1| ≤ tol) (h2 : |v2 - x2| ≤ tol) :
    tick { enabled := true, syncing := false, dev1 := some a, dev2 := some b }
        (some x1) (some x2)
      = { last1 := some v1, last2 := some v2, write1 := none, write2 := none } := by
  have hd1 : volDiffers (some x1) v1 = false := by
    simp [volDiffers]
    exact h1
  have hd2 : volDiffers (some x2) v2 = false := by
    simp [volDiffers]
    exact h2
  simp [tick, ha, hb, hv1, hv2, hd1, hd2]

/-- Witness for C2: post-sync agreement at 1/2 on both sides produces no
write on the following tick. -/
theorem C2_no_write_within_tol_witness :
    tick { enabled := true, syncing := false,
           dev1 := some ⟨true, true, some (1/2), true⟩,
           dev2 := some ⟨true, true, some (1/2), true⟩ }
        (some (1/2)) (some (1/2))
      = { last1 := some (1/2), last2 := some (1/2), write1 := none, write2 := none } :=
  C2_no_write_within_tol ⟨true, true, some (1/2), true⟩ ⟨true, true, some (1/2), true⟩
    (1/2) (1/2) (1/2) (1/2) rfl rfl rfl rfl
    (by norm_num [tol]) (by norm_num [tol])

/-- C9: with a last-observed volume set, a current volume differing from it
by exactly 0.0011 passes the strict change test against the 0.001 tolerance
and one differing by exactly 0.0009 does not; accordingly, in a full tick
with both last-observed volumes set to 1/2, a 0.0011 difference triggers the
slot's sync branch (for slot 1 and slot 2 alike) and a 0.0009 difference
does not. -/
theorem C9_tolerance_boundary :
    (∀ x v : ℚ, |v - x| = 11/10000 → volDiffers (some x) v = true)
    ∧ (∀ x v : ℚ, |v - x| = 9/10000 → volDiffers (some x) v = false)
    ∧ (tick { enabled := true, syncing := false,
              dev1 := some ⟨true, true, some (1/2 + 11/10000), true⟩,
              dev2 := some ⟨true, true, some (1/2), true⟩ }
        (some (1/2)) (some (1/2))
      = { last1 := some (1/2 + 11/10000), last2 := some (1/2 + 11/10000),
          write1 := none, write2 := some (1/2 + 11/10000) })
    ∧ (tick { enabled := true, syncing := false,
              dev1 := some ⟨true, true, some (1/2 + 9/10000), true⟩,
              dev2 := some ⟨true, true, some (1/2), true⟩ }
        (some (1/2)) (some (1/2))
      = { last1 := some (1/2 + 9/10000), last2 := some (1/2),
          write1 := none, write2 := none })
    ∧ (tick { enabled := true, syncing := false,
              dev1 := some ⟨true, true, some (1/2), true⟩,
              dev2 := some ⟨true, true, some (1/2 + 11/10000), true⟩ }
        (some (1/2)) (some (1/2))
      = { last1 := some (1/2 + 11/10000), last2 := some (1/2 + 11/10000),
          write1 := some (1/2 + 11/10000), write2 := none })
    ∧ (tick { enabled := true, syncing := false,
              dev1 := some ⟨true, true, some (1/2), true⟩,
              dev2 := some ⟨true, true, some (1/2 + 9/10000), true⟩ }
        (some (1/2)) (some (1/2))
      = { last1 := some (1/2), last2 := some (1/2 + 9/10000),
          write1 := none, write2 := none }) := by
  refine ⟨?_, ?_, ?_, ?_, ?_, ?_⟩
  · intro x v h
    simp only [volDiffers, tol, h]
    norm_num
  · intro x v h
    simp only [volDiffers, tol, h]
    norm_num
  all_goals
    simp only [tick, volDiffers, tol, TickRes.skip]
    norm_num [abs_of_nonneg]

/-- Witness for C9 at last-observed 1/2 and current 1/2 + 11/10000. -/
theorem C9_tolerance_boundary_witness :
    |(1:ℚ)/2 + 11/10000 - 1/2| = 11/10000
    ∧ volDiffers (some (1/2)) (1/2 + 11/10000) = true :=
  have h : |(1:ℚ)/2 + 11/10000 - 1/2| = 11/10000 := by
    rw [show (1:ℚ)/2 + 11/10000 - 1/2 = 11/10000 by ring]
    exact abs_of_nonneg (by norm_num)
  ⟨h, C9_tolerance_boundary.1 (1/2) (1/2 + 11/10000) h⟩

/-- Attempt made by both resolvers on one matching snapshot device:
construct the endpoint object and keep it only if its initialization
against the snapshot succeeds. -/
def tryResolve (full : List PycawDevice) (d : PycawDevice) : Option ADState :=
  match AudioDevice.initialize (some full) (AudioDevice.init d.id d.friendlyName) with
  | (true, ad) => some ad
  | (false, _) => none

/-- Characterization of the `find_device_by_name` scan loop: it returns the
first matching device whose initialization succeeds. -/
theorem findByNameGo_eq_findSome (full : List PycawDevice) (n : String) :
    ∀ m : List PycawDevice,
      findByNameGo m full n
        = m.findSome? fun d => if d.friendlyName = n then tryResolve full d else none
  | [] => rfl
  | d :: rest => by
    have ih := findByNameGo_eq_findSome full n rest
    simp only [findByNameGo, List.findSome?, tryResolve]
    by_cases h : d.friendlyName = n
    · rw [if_pos h, if_pos h]
      rcases hinit : AudioDevice.initialize (some full) (AudioDevice.init d.id d.friendlyName)
        with ⟨b, ad⟩
      cases b
      · exact ih
      · rfl
    · rw [if_neg h, if_neg h]
      exact ih

/-- Characterization of the `find_device_by_id` scan loop: it returns the
first matching device whose initialization succeeds. -/
theorem findByIdGo_eq_findSome (full : List PycawDevice) (i : String) :
    ∀ m : List PycawDevice,
      findByIdGo m full i
        = m.findSome? fun d => if d.id = i then tryResolve full d else none
  | [] => rfl
  | d :: rest => by
    have ih := findByIdGo_eq_findSome full i rest
    simp only [findByIdGo, List.findSome?, tryResolve]
    by_cases h : d.id = i
    · rw [if_pos h, if_pos h]
      rcases hinit : AudioDevice.initialize (some full) (AudioDevice.init d.id d.friendlyName)
        with ⟨b, ad⟩
      cases b
      · exact ih
      · rfl
    · rw [if_neg h, if_neg h]
      exact ih

/-- Counterexample to C3: in a snapshot with two devices named "n", the
first match (id "a") has no volume attribute, so its initialization fails;
the claim then requires `find_device_by_name` to return none, but the scan
continues and returns an endpoint built from the later matching device
(id "b"). -/
theorem C3_counterexample :
    (( AudioDevice.initialize
        (some [⟨"a", "n", .missing⟩, ⟨"b", "n", .ok ⟨some 1, false⟩⟩])
        (AudioDevice.init "a" "n")).1 = false)
    ∧ find_device_by_name
        (some [⟨"a", "n", .missing⟩, ⟨"b", "n", .ok ⟨some 1, false⟩⟩]) "n"
        = some ⟨"b", "n", some ⟨some 1, false⟩, some ⟨"b", "n", .ok ⟨some 1, false⟩⟩⟩ :=
  ⟨rfl, rfl⟩

/-- C3 (amended): each resolver scans the snapshot once and returns the
endpoint constructed from the first matching device whose `initialize()`
succeeds; if no matching device initializes successfully the result is
none — a failed initialization of an earlier match does not stop the scan,
so the result may be built from a later matching device. -/
theorem C3_amended_first_success (l : List PycawDevice) (i n : String) :
    find_device_by_id (some l) i
        = l.findSome? (fun d => if d.id = i then tryResolve l d else none)
    ∧ find_device_by_name (some l) n
        = l.findSome? (fun d => if d.friendlyName = n then tryResolve l d else none) :=
  ⟨findByIdGo_eq_findSome l i l, findByNameGo_eq_findSome l n l⟩

/-- C4: the per-slot last-observed volumes are set to none exactly at the
start of the monitor loop and are untouched by `set_devices` and by
`set_enabled`; in particular the change test of the tick following an
endpoint swap compares against the baselines recorded before the swap. -/
theorem C4_lasts_frame :
    (∀ (s : RunState) (d1 d2 : Option ADState),
        (set_devices s d1 d2).last1 = s.last1 ∧ (set_devices s d1 d2).last2 = s.last2)
    ∧ (∀ (s : RunState) (e : Bool),
        (set_enabled s e).last1 = s.last1 ∧ (set_enabled s e).last2 = s.last2)
    ∧ (∀ s : RunState,
        (monitorLoopStart s).last1 = none ∧ (monitorLoopStart s).last2 = none)
    ∧ (∀ (s : RunState) (d1 d2 : Option ADState) (v : ℚ),
        volDiffers (set_devices s d1 d2).last1 v = volDiffers s.last1 v
        ∧ volDiffers (set_devices s d1 d2).last2 v = volDiffers s.last2 v) :=
  ⟨fun _ _ _ => ⟨rfl, rfl⟩, fun _ _ => ⟨rfl, rfl⟩, fun _ => ⟨rfl, rfl⟩,
    fun _ _ _ _ => ⟨rfl, rfl⟩⟩

/-- Counterexample to C5: the body of `is_enabled` reads the `_enabled`
field without acquiring the lock, so not every public operation holds the
critical section for its full duration. -/
theorem C5_counterexample :
    acquiresLockFully (opTrace .is_enabled) = false := by decide

/-- C5 (amended): only `set_devices` and `set_enabled` acquire the critical
section for their full duration; `is_enabled`, `start` and `stop` access
the shared fields without taking the lock. -/
theorem C5_amended_lock_discipline :
    acquiresLockFully (opTrace .set_devices) = true
    ∧ acquiresLockFully (opTrace .set_enabled) = true
    ∧ acquiresLockFully (opTrace .is_enabled) = false
    ∧ acquiresLockFully (opTrace .start) = false
    ∧ acquiresLockFully (opTrace .stop) = false := by decide

/-- Counterexample to C10: device 1 moves from 1/2 to 9/10 and the tick
takes slot 1's branch with a failing cross-write (`setOk = false`), setting
both last-observed volumes to 9/10; on the next tick device 2 still holds
its stale volume 1/2, which differs from the recorded 9/10 by more than the
tolerance, so the tick does take slot 2's branch and writes 1/2 back to
device 1 — contradicting the claim that the next tick sees neither side
differing and performs no write. -/
theorem C10_counterexample :
    (tick { enabled := true, syncing := false,
            dev1 := some ⟨true, true, some (9/10), true⟩,
            dev2 := some ⟨true, true, some (1/2), false⟩ }
        (some (1/2)) (some (1/2))
      = { last1 := some (9/10), last2 := some (9/10),
          write1 := none, write2 := some (9/10) })
    ∧ (tick { enabled := true, syncing := false,
              dev1 := some ⟨true, true, some (9/10), true⟩,
              dev2 := some ⟨true, true, some (1/2), false⟩ }
        (some (9/10)) (some (9/10))
      = { last1 := some (1/2), last2 := some (1/2),
          write1 := some (1/2), write2 := none }) := by
  constructor
  · simp only [tick, volDiffers, tol, TickRes.skip]
    norm_num [abs_of_nonneg]
  · have hd1 : volDiffers (some ((9:ℚ)/10)) (9/10) = false := by
      simp [volDiffers, tol]
    have hd2 : volDiffers (some ((9:ℚ)/10)) (2⁻¹) = true := by
      simp only [volDiffers, tol, decide_eq_true_eq]
      rw [show (2:ℚ)⁻¹ - 9/10 = -(2/5) by norm_num, abs_neg,
        abs_of_nonneg (by norm_num : (0:ℚ) ≤ 2/5)]
      norm_num
    simp [tick, hd1, hd2]

/-- C10 (amended): a tick never inspects the boolean result of a
`set_volume` call (the tick function is independent of the per-device
`setOk` observation), and when a sync branch runs both last-observed
volumes are set to the propagated value; consequently, if the cross-write
fails, the next tick sees the source slot as unchanged but still compares
the target slot's stale volume against the propagated value, and when they
differ by more than the tolerance it takes the target slot's branch and
writes the stale value back to the source endpoint. -/
theorem C10_amended (k1 k2 : Bool) (env : TickEnv) (l1 l2 : Option ℚ)
    (a b : DevTick) (v1 v2 : ℚ)
    (ha : a.available = true) (hb : b.available = true)
    (hv1 : a.vol = some v1) (hv2 : b.vol = some v2)
    (hstale : |v2 - v1| > tol) :
    (tick { env with dev1 := env.dev1.map fun d => { d with setOk := k1 },
                     dev2 := env.dev2.map fun d => { d with setOk := k2 } } l1 l2
      = tick env l1 l2)
    ∧ (tick { enabled := true, syncing := false, dev1 := some a, dev2 := some b }
          (some v1) (some v1)
        = { last1 := some v2, last2 := some v2, write1 := some v2, write2 := none }) := by
  constructor
  · obtain ⟨e, sy, d1, d2⟩ := env
    cases d1 with
    | none => rfl
    | some da =>
      cases d2 with
      | none => rfl
      | some db =>
        obtain ⟨da1, da2, da3, da4⟩ := da
        obtain ⟨db1, db2, db3, db4⟩ := db
        rfl
  · have hd1 : volDiffers (some v1) v1 = false := by
      simp [volDiffers, tol]
    have hd2 : volDiffers (some v1) v2 = true := by
      simp [volDiffers, decide_eq_true_eq]
      exact hstale
    simp [tick, ha, hb, hv1, hv2, hd1, hd2]

/-- Witness for C10 (amended) at the concrete failed-write scenario:
lasts recorded at 9/10 while device 2 is stale at 1/2. -/
theorem C10_amended_witness :
    tick { enabled := true, syncing := false,
           dev1 := some ⟨true, true, some (9/10), true⟩,
           dev2 := some ⟨true, true, some (1/2), false⟩ }
        (some (9/10)) (some (9/10))
      = { last1 := some (1/2), last2 := some (1/2),
          write1 := some (1/2), write2 := none } :=
  (C10_amended true false
      { enabled := true, syncing := false, dev1 := none, dev2 := none }
      none none
      ⟨true, true, some (9/10), true⟩ ⟨true, true, some (1/2), false⟩
      (9/10) (1/2) rfl rfl rfl rfl
      (by rw [show (1:ℚ)/2 - 9/10 = -(2/5) by norm_num, abs_neg,
            abs_of_nonneg (by norm_num : (0:ℚ) ≤ 2/5)]
          norm_num [tol])).2

/-- Witness for C8 at a concrete bound handle whose read succeeds. -/
theorem C8_get_volume_none_iff_witness :
    AudioDevice.get_volume ⟨"a", "n", some ⟨some (3/4), false⟩, none⟩ = some (3/4) :=
  (C8_get_volume_none_iff ⟨"a", "n", some ⟨some (3/4), false⟩, none⟩).2
    ⟨some (3/4), false⟩ (3/4) rfl rfl

end AudioLink
